import Mathlib

/-!
Shallow embedding of the BOB email-analysis backend
(`src/backend/gmail_service.py`, `src/backend/ai_service.py`,
`src/backend/models.py`, `src/backend/app.py`).

External collaborators (the Gmail transport, the OpenAI completion
endpoint, `email.utils.parsedate_to_datetime`, JSON (de)serialization of
stored credentials) are modelled as explicit environment records of
functions; an exception raised by such a collaborator is modelled as the
corresponding function returning `none`.  Database state (the user row,
the stored analysis rows, the usage log) is threaded explicitly.
-/

namespace BOB

/-- One entry of a profile's `sent_times` list, as built by
`analyze_email_patterns`: the dict with keys `hour`, `day`, `timestamp`. -/
structure SentTime where
  hour : Nat
  day : String
  timestamp : String
deriving DecidableEq, Repr

/-- A per-sender engagement profile: the dict with keys `sent_times` and
`topics` built by `analyze_email_patterns` in `gmail_service.py`. -/
structure Profile where
  sent_times : List SentTime
  topics : List String
deriving DecidableEq, Repr

/-- The profiles mapping (a Python dict keyed by sender address), modelled
as an insertion-ordered association list. -/
abbrev Profiles := List (String × Profile)

/-- Dict lookup: `profiles.get(k)`. -/
def lookupProfile : Profiles → String → Option Profile
  | [], _ => none
  | (k₁, v) :: rest, k => if k₁ = k then some v else lookupProfile rest k

/-- `defaultdict` access-and-mutate: apply `f` to the entry of `k`,
creating the entry (initialised to empty lists, at the end, matching dict
insertion order) when it is absent. -/
def updateProfile (ps : Profiles) (k : String) (f : Profile → Profile) : Profiles :=
  match ps with
  | [] => [(k, f ⟨[], []⟩)]
  | (k₁, v) :: rest =>
      if k₁ = k then (k₁, f v) :: rest else (k₁, v) :: updateProfile rest k f

/-- A normalized message as produced by `fetch_emails`: the dict with keys
`id`, `sender`, `sender_name`, `subject`, `snippet`, `date`. -/
structure EmailData where
  id : String
  sender : String
  sender_name : String
  subject : String
  snippet : String
  date : String
deriving DecidableEq, Repr

/-- The loop body of `analyze_email_patterns` for one message.  Python:
`if date_str:` guards the parse; a parse exception aborts the iteration
before either append runs (`continue`); with an empty date string only the
`topics` append runs.  `pd` embeds `email.utils.parsedate_to_datetime`
together with `.hour` / `.strftime` / `.isoformat` (external library);
`none` models a raised exception. -/
def patternStep (pd : String → Option SentTime) (ps : Profiles) (e : EmailData) : Profiles :=
  if e.date ≠ "" then
    match pd e.date with
    | some t =>
        updateProfile ps e.sender
          (fun p => ⟨p.sent_times ++ [t], p.topics ++ [e.subject]⟩)
    | none => ps
  else
    updateProfile ps e.sender (fun p => ⟨p.sent_times, p.topics ++ [e.subject]⟩)

/-- `analyze_email_patterns` (`gmail_service.py`): fold the step over the
batch starting from an empty dict. -/
def analyze_email_patterns (pd : String → Option SentTime) (emails : List EmailData) :
    Profiles :=
  emails.foldl (patternStep pd) []

/-- The JSON object returned by the send-time inference call: any subset of
the four advertised fields may be present. -/
structure SendTimeResp where
  recommended_hour : Option Int
  recommended_day : Option String
  confidence : Option String
  reasoning : Option String
deriving DecidableEq, Repr

/-- The JSON object returned by the personalization inference call: any
subset of the six advertised fields may be present. -/
structure PersonalizationResp where
  tone : Option String
  keyTopics : Option (List String)
  greeting : Option String
  contentHooks : Option (List String)
  cta : Option String
  notes : Option String
deriving DecidableEq, Repr

/-- The inference service (`client.chat.completions.create` followed by
`json.loads`), as an environment.  Each function receives the data the
corresponding prompt is built from; `none` models any exception (network
failure, non-JSON content). -/
structure AIEnv where
  predictCall : String → List SentTime → Option SendTimeResp
  personalizeCall : String → String → String → List String → Option PersonalizationResp

/-- `predict_optimal_send_time` (`ai_service.py`), returning the result
dict together with the number of inference calls performed. -/
def predict_optimal_send_time (env : AIEnv) (email_address : String)
    (profiles : Profiles) : SendTimeResp × Nat :=
  match lookupProfile profiles email_address with
  | none =>
      (⟨some 10, some "Tuesday", some "low",
        some "No historical data available. Using industry best practices."⟩, 0)
  | some profile =>
      if profile.sent_times.isEmpty then
        (⟨some 10, some "Tuesday", some "low",
          some "No historical data available. Using industry best practices."⟩, 0)
      else
        match env.predictCall email_address profile.sent_times with
        | some r => (r, 1)
        | none =>
            (⟨some 10, some "Tuesday", some "low",
              some "Using default timing due to analysis error"⟩, 1)

/-- `generate_personalized_content` (`ai_service.py`), returning the result
dict together with the number of inference calls performed (always 1). -/
def generate_personalized_content (env : AIEnv)
    (recipient_email subject snippet : String) (profiles : Profiles) :
    PersonalizationResp × Nat :=
  let topics := ((lookupProfile profiles recipient_email).map Profile.topics).getD []
  match env.personalizeCall recipient_email subject snippet topics with
  | some r => (r, 1)
  | none =>
      (⟨some "professional", some ["general inquiry"], some "Hello",
        some ["value proposition"], some "Reply at your convenience",
        some "Standard approach due to analysis error"⟩, 1)

/-- One merged analysis result, as assembled by `analyze_email_batch`
(flattening the nested `optimalTime` / `personalization` dicts, which is
also the column shape of `EmailAnalysis` in `models.py`). -/
structure AnalyzedEmail where
  id : String
  sender : String
  senderName : String
  subject : String
  snippet : String
  optimal_day : String
  optimal_hour : Int
  confidence : String
  tone : String
  greeting : String
  keyTopics : List String
  contentHooks : List String
  cta : String
  notes : String
deriving DecidableEq, Repr

/-- The loop body of `analyze_email_batch` for one message: one
`predict_optimal_send_time` invocation, one `generate_personalized_content`
invocation, then the `.get(key, default)` merges. -/
def analyzeOne (env : AIEnv) (profiles : Profiles) (e : EmailData) :
    AnalyzedEmail × Nat :=
  let st := predict_optimal_send_time env e.sender profiles
  let pz := generate_personalized_content env e.sender e.subject e.snippet profiles
  ({ id := e.id
     sender := e.sender
     senderName := e.sender_name
     subject := e.subject
     snippet := e.snippet
     optimal_day := st.1.recommended_day.getD "Tuesday"
     optimal_hour := st.1.recommended_hour.getD 10
     confidence := st.1.confidence.getD "medium"
     tone := pz.1.tone.getD "professional"
     greeting := pz.1.greeting.getD "Hello"
     keyTopics := pz.1.keyTopics.getD []
     contentHooks := pz.1.contentHooks.getD []
     cta := pz.1.cta.getD "Reply"
     notes := pz.1.notes.getD "N/A" }, st.2 + pz.2)

/-- `analyze_email_batch` (`ai_service.py`): the analyzed list in input
order, together with the total number of inference calls performed. -/
def analyze_email_batch (env : AIEnv) (emails : List EmailData)
    (profiles : Profiles) : List AnalyzedEmail × Nat :=
  emails.foldl
    (fun acc e =>
      let r := analyzeOne env profiles e
      (acc.1 ++ [r.1], acc.2 + r.2))
    ([], 0)

/-! ### Credential store (`gmail_service.py`) -/

/-- The `google.oauth2.credentials.Credentials` object as the code observes
it: the five stored fields plus the library-computed `valid` / `expired`
flags. -/
structure GoogleCreds where
  token : Option String
  refresh_token : Option String
  token_uri : String
  client_id : String
  client_secret : String
  valid : Bool
  expired : Bool
deriving DecidableEq, Repr

/-- Python truthiness of an optional string (`None` and `""` are falsy). -/
def strTruthy : Option String → Bool
  | none => false
  | some s => !s.isEmpty

/-- `build('gmail', 'v1', credentials=creds)`: the session handle, carrying
the credentials it was built from. -/
structure GmailService where
  creds : GoogleCreds
deriving DecidableEq, Repr

/-- External credential machinery: `json.loads` + the `Credentials`
constructor (`parseCreds`, `none` models a raised exception, e.g. a missing
key), `creds.refresh(Request())` (`none` models a raised exception), and
`json.dumps` of the five-field dict (`dumpCreds`). -/
structure GmailEnv where
  parseCreds : String → Option GoogleCreds
  refresh : GoogleCreds → Option GoogleCreds
  dumpCreds : GoogleCreds → String

/-- The user row (`models.py`), restricted to the columns the analysis
pipeline reads or writes. -/
structure AppUser where
  id : Nat
  subscription_tier : String
  emails_analyzed_this_month : Nat
  total_emails_analyzed : Nat
  gmail_credentials : Option String
  gmail_refresh_token : Option String
deriving DecidableEq, Repr

/-- `User.get_usage_limit` (`models.py`): the tier-limits dict with default
10. -/
def get_usage_limit (u : AppUser) : Nat :=
  if u.subscription_tier = "free" then 10
  else if u.subscription_tier = "pro" then 500
  else if u.subscription_tier = "enterprise" then 10000
  else 10

/-- `User.can_analyze_email` (`models.py`). -/
def can_analyze_email (u : AppUser) : Bool :=
  u.emails_analyzed_this_month < get_usage_limit u

/-- `save_gmail_credentials` (`gmail_service.py`): serialize the five-field
dict into `user.gmail_credentials`, mirror the refresh token, commit. -/
def save_gmail_credentials (env : GmailEnv) (u : AppUser) (creds : GoogleCreds) :
    AppUser :=
  { u with
    gmail_credentials := some (env.dumpCreds creds)
    gmail_refresh_token := creds.refresh_token }

/-- `get_gmail_service` (`gmail_service.py`): returns the session handle
(or `none`), the possibly-updated user row, and the number of refresh
attempts performed. -/
def get_gmail_service (env : GmailEnv) (u : AppUser) :
    Option GmailService × AppUser × Nat :=
  if strTruthy u.gmail_credentials then
    match env.parseCreds (u.gmail_credentials.getD "") with
    | none => (none, u, 0)
    | some creds =>
        if creds.valid then (some ⟨creds⟩, u, 0)
        else if creds.expired && strTruthy creds.refresh_token then
          match env.refresh creds with
          | some creds₂ =>
              (some ⟨creds₂⟩, save_gmail_credentials env u creds₂, 1)
          | none => (none, u, 1)
        else (none, u, 0)
  else (none, u, 0)

/-! ### Transport and normalizer (`fetch_emails`, `gmail_service.py`) -/

/-- A raw transport message: `payload` is `none` when the `payload` key is
absent from the response (the per-message `KeyError` path); otherwise it
holds the header list, exactly as returned. -/
structure RawMessage where
  payload : Option (List (String × String))
  snippet : String
deriving DecidableEq, Repr

/-- The mailbox transport: `users().messages().list` (`none` models a
raised exception, which aborts the whole fetch) and
`users().messages().get` (`none` models a raised exception, which skips
that message). -/
structure MailEnv where
  listMessages : GmailService → Nat → Option (List String)
  getMessage : GmailService → String → Option RawMessage

/-- The header dict comprehension: later duplicates overwrite earlier ones,
so lookup takes the last occurrence; `dflt` is the `.get` default. -/
def headersGet (hs : List (String × String)) (name dflt : String) : String :=
  match hs.reverse.find? (fun h => h.1 = name) with
  | some h => h.2
  | none => dflt

/-- Python `c in s` for a single character. -/
def pyContains (s : String) (c : Char) : Bool :=
  s.toList.contains c

/-- Worker for `pySplitChar`. -/
def splitCharAux (c : Char) : List Char → List Char → List (List Char)
  | [], acc => [acc.reverse]
  | x :: xs, acc =>
      if x = c then acc.reverse :: splitCharAux c xs []
      else splitCharAux c xs (x :: acc)

/-- Python `str.split(sep)` for a one-character separator. -/
def pySplitChar (s : String) (c : Char) : List String :=
  (splitCharAux c s.toList []).map (fun l => ⟨l⟩)

/-- Python `str.strip()`: drop whitespace from both ends. -/
def pyStrip (s : String) : String :=
  ⟨((s.toList.dropWhile Char.isWhitespace).reverse.dropWhile
      Char.isWhitespace).reverse⟩

/-- Python `str.strip('"')`: drop quote characters from both ends. -/
def stripQuotes (s : String) : String :=
  ⟨((s.toList.dropWhile (· = Char.ofNat 34)).reverse.dropWhile
      (· = Char.ofNat 34)).reverse⟩

/-- Worker for `pySplitWs`. -/
def wsSplitAux : List Char → List Char → List String
  | [], acc => if acc.isEmpty then [] else [⟨acc.reverse⟩]
  | x :: xs, acc =>
      if x.isWhitespace then
        if acc.isEmpty then wsSplitAux xs [] else ⟨acc.reverse⟩ :: wsSplitAux xs []
      else wsSplitAux xs (x :: acc)

/-- Python `str.split()` with no argument: split on whitespace runs,
discarding empty pieces. -/
def pySplitWs (s : String) : List String :=
  wsSplitAux s.toList []

/-- The per-message body of the `fetch_emails` loop, after a successful
`get`: header extraction and From-header normalization.  `none` models a
raised exception (missing `payload`, or `sender.split()[0]` on a nonempty
all-whitespace From header), which the surrounding `except: continue`
turns into a skip. -/
def process_message (mid : String) (raw : RawMessage) : Option EmailData :=
  match raw.payload with
  | none => none
  | some hs =>
      let sender := headersGet hs "From" ""
      let subject := headersGet hs "Subject" "(No Subject)"
      let date := headersGet hs "Date" ""
      if pyContains sender (Char.ofNat 60) then
        let email :=
          (pySplitChar ((pySplitChar sender (Char.ofNat 60)).getD 1 "")
            (Char.ofNat 62)).getD 0 ""
        let sender_name :=
          stripQuotes (pyStrip ((pySplitChar sender (Char.ofNat 60)).getD 0 ""))
        some ⟨mid, email, sender_name, subject, raw.snippet, date⟩
      else
        if sender.isEmpty then
          some ⟨mid, "unknown", sender, subject, raw.snippet, date⟩
        else
          match pySplitWs sender with
          | [] => none
          | e :: _ => some ⟨mid, e, sender, subject, raw.snippet, date⟩

/-- `fetch_emails` (`gmail_service.py`): list then get-and-normalize each
id, skipping per-message failures; a list failure raises and aborts the
fetch. -/
def fetch_emails (env : MailEnv) (service : GmailService) (max_results : Nat) :
    Except String (List EmailData) :=
  match env.listMessages service max_results with
  | none => Except.error "Failed to fetch emails"
  | some ids =>
      Except.ok (ids.filterMap (fun i => (env.getMessage service i).bind (process_message i)))

/-! ### Analysis orchestrator (`/api/analyze`, `app.py`) -/

/-- The `usage` block of the response statistics. -/
structure UsageBlock where
  used : Nat
  limit : Nat
  remaining : Int
deriving DecidableEq, Repr

/-- The `stats` block of a successful analysis response. -/
structure Stats where
  totalEmails : Nat
  avgConfidence : String
  optimizationRate : String
  engagementBoost : String
  usage : UsageBlock
deriving DecidableEq, Repr

/-- The possible responses of the analyze endpoint, by HTTP outcome:
429 quota, 400 Gmail-not-connected, 500 on a raised exception, 200 on
success. -/
inductive AnalyzeResult where
  | quotaExceeded (limit used : Nat)
  | gmailNotConnected
  | serverError (msg : String)
  | ok (emails : List AnalyzedEmail) (stats : Stats)
deriving DecidableEq, Repr

/-- Persisted state mutated by the analyze endpoint: the stored
`EmailAnalysis` rows and the `UsageLog` counts. -/
structure DbState where
  analyses : List AnalyzedEmail
  usage_logs : List Nat
deriving DecidableEq, Repr

/-- The full collaborator environment of the analyze endpoint. -/
structure Env where
  gmail : GmailEnv
  mail : MailEnv
  ai : AIEnv
  parsedate : String → Option SentTime

/-- The number of analyzed emails whose confidence is the string `high`
(the `high_confidence` generator expression). -/
def countHigh (es : List AnalyzedEmail) : Nat :=
  (es.filter (fun e => e.confidence = "high")).length

/-- The `avgConfidence` conditional expression.  The Python float
comparisons `hc/n > 0.6` and `hc/n > 0.3` agree with exact rational
comparison for every reachable `n ≤ 10` (the nearest fraction with
denominator at most 10 to either threshold is farther than any
double-rounding error), so they are embedded as exact comparisons. -/
def avgConfidenceLabel (hc n : Nat) : String :=
  if 10 * hc > 6 * n then "High"
  else if 10 * hc > 3 * n then "Medium"
  else "Low"

/-- `analyze_emails` (`app.py`), from the quota gate on (the user row is
given, as after the JWT lookup).  Returns the response, the user row and
database state after the request, and the number of inference-service
calls performed.  The division by `len(analyzed_emails)` in the stats
computation raises `ZeroDivisionError` when no records were produced; the
surrounding `except` turns that into a 500 response, after the commit of
the records and counters has already happened. -/
def analyze_emails (env : Env) (u : AppUser) (db : DbState) (requested : Nat) :
    AnalyzeResult × AppUser × DbState × Nat :=
  if ¬ can_analyze_email u then
    (.quotaExceeded (get_usage_limit u) u.emails_analyzed_this_month, u, db, 0)
  else
    match get_gmail_service env.gmail u with
    | (none, u₁, _) => (.gmailNotConnected, u₁, db, 0)
    | (some service, u₁, _) =>
        let max_results := min requested 10
        match fetch_emails env.mail service 50 with
        | .error e => (.serverError e, u₁, db, 0)
        | .ok emails =>
            let profiles := analyze_email_patterns env.parsedate emails
            let emails_to_analyze := emails.take max_results
            let batch := analyze_email_batch env.ai emails_to_analyze profiles
            let analyzed := batch.1
            let u₂ := { u₁ with
              emails_analyzed_this_month :=
                u₁.emails_analyzed_this_month + analyzed.length
              total_emails_analyzed :=
                u₁.total_emails_analyzed + analyzed.length }
            let db₂ : DbState :=
              ⟨db.analyses ++ analyzed, db.usage_logs ++ [analyzed.length]⟩
            if analyzed.length = 0 then
              (.serverError "division by zero", u₂, db₂, batch.2)
            else
              let hc := countHigh analyzed
              let n := analyzed.length
              let stats : Stats :=
                { totalEmails := n
                  avgConfidence := avgConfidenceLabel hc n
                  optimizationRate := toString (hc * 100 / n) ++ "%"
                  engagementBoost := "+34%"
                  usage :=
                    ⟨u₂.emails_analyzed_this_month, get_usage_limit u₂,
                     (get_usage_limit u₂ : Int) - (u₂.emails_analyzed_this_month : Int)⟩ }
              (.ok analyzed stats, u₂, db₂, batch.2)

/-! ### Export (`/api/export/<id>`, `app.py`) -/

/-- A persisted `EmailAnalysis` row as the export route reads it
(`models.py`): the analysis fields plus the database id, the Gmail message
id, and the creation timestamp. -/
structure AnalysisRow where
  id : Nat
  email_id : String
  sender : String
  sender_name : String
  subject : String
  snippet : String
  optimal_day : String
  optimal_hour : Int
  confidence : String
  tone : String
  greeting : String
  key_topics : List String
  content_hooks : List String
  cta : String
  notes : String
  created_at : String
deriving DecidableEq, Repr

/-- `Config.APP_NAME` default (`config.py`). -/
def appName : String := "BOB 2 Email AI Assistant"

/-- `'=' * 50`. -/
def exportSeparator : String := ⟨List.replicate 50 (Char.ofNat 61)⟩

/-- The markdown rendering of `export_analysis` (`app.py`).  `now` is the
`datetime.utcnow().strftime` string interpolated into the output. -/
def exportMarkdown (a : AnalysisRow) (now : String) : String :=
  "# Email Personalization Strategy\n\n## Recipient Information\n- **Email:** "
    ++ a.sender
    ++ "\n- **Name:** " ++ a.sender_name
    ++ "\n- **Subject:** " ++ a.subject
    ++ "\n\n## Optimal Send Time\n- **Best Day:** " ++ a.optimal_day
    ++ "\n- **Best Time:** " ++ toString a.optimal_hour ++ ":00"
    ++ "\n- **Confidence:** " ++ a.confidence.toUpper
    ++ "\n\n## Personalization Strategy\n- **Recommended Tone:** " ++ a.tone
    ++ "\n- **Suggested Greeting:** " ++ a.greeting
    ++ "\n- **Key Topics:** " ++ String.intercalate ", " a.key_topics
    ++ "\n- **Content Hooks:** " ++ String.intercalate ", " a.content_hooks
    ++ "\n- **Call-to-Action:** " ++ a.cta
    ++ "\n\n## Notes\n" ++ a.notes
    ++ "\n\n---\nGenerated by " ++ appName
    ++ "\nDate: " ++ now
    ++ "\nAnalysis ID: " ++ toString a.id ++ "\n"

/-- The plain-text rendering of `export_analysis` (`app.py`). -/
def exportText (a : AnalysisRow) (now : String) : String :=
  "EMAIL PERSONALIZATION STRATEGY\n" ++ exportSeparator
    ++ "\n\nRECIPIENT: " ++ a.sender
    ++ "\nNAME: " ++ a.sender_name
    ++ "\nSUBJECT: " ++ a.subject
    ++ "\n\nOPTIMAL SEND TIME\nDay: " ++ a.optimal_day
    ++ "\nTime: " ++ toString a.optimal_hour ++ ":00"
    ++ "\nConfidence: " ++ a.confidence.toUpper
    ++ "\n\nPERSONALIZATION\nTone: " ++ a.tone
    ++ "\nGreeting: " ++ a.greeting
    ++ "\nTopics: " ++ String.intercalate ", " a.key_topics
    ++ "\nHooks: " ++ String.intercalate ", " a.content_hooks
    ++ "\nCTA: " ++ a.cta
    ++ "\n\nNOTES: " ++ a.notes
    ++ "\n\n" ++ exportSeparator
    ++ "\nGenerated: " ++ now
    ++ "\nAnalysis ID: " ++ toString a.id ++ "\n"

/-! ### Helper lemmas -/

theorem lookupProfile_update_self (ps : Profiles) (k : String) (f : Profile → Profile) :
    lookupProfile (updateProfile ps k f) k =
      some (f ((lookupProfile ps k).getD ⟨[], []⟩)) := by
  induction ps with
  | nil => simp [updateProfile, lookupProfile]
  | cons hd tl ih =>
      obtain ⟨k₁, v⟩ := hd
      by_cases h : k₁ = k
      · subst h
        simp [updateProfile, lookupProfile]
      · simp [updateProfile, lookupProfile, h, ih]

theorem lookupProfile_update_ne (ps : Profiles) (k : String) (f : Profile → Profile)
    (s : String) (h : s ≠ k) :
    lookupProfile (updateProfile ps k f) s = lookupProfile ps s := by
  induction ps with
  | nil => simp [updateProfile, lookupProfile, Ne.symm h]
  | cons hd tl ih =>
      obtain ⟨k₁, v⟩ := hd
      by_cases h₁ : k₁ = k
      · subst h₁
        simp [updateProfile, lookupProfile, Ne.symm h]
      · simp [updateProfile, lookupProfile, h₁, ih]

theorem lookupProfile_update_isSome (ps : Profiles) (k : String) (f : Profile → Profile)
    (s : String) :
    (∃ p, lookupProfile (updateProfile ps k f) s = some p) ↔
      (∃ p, lookupProfile ps s = some p) ∨ s = k := by
  by_cases h : s = k
  · subst h
    simp [lookupProfile_update_self]
  · simp [lookupProfile_update_ne ps k f s h, h]

theorem lookup_patternStep_isSome (pd : String → Option SentTime) (ps : Profiles)
    (m : EmailData) (s : String) :
    (∃ p, lookupProfile (patternStep pd ps m) s = some p) ↔
      (∃ p, lookupProfile ps s = some p) ∨
        (m.sender = s ∧ (m.date = "" ∨ ∃ t, pd m.date = some t)) := by
  by_cases hd : m.date = ""
  · have hstep : patternStep pd ps m =
        updateProfile ps m.sender (fun p => ⟨p.sent_times, p.topics ++ [m.subject]⟩) := by
      simp [patternStep, hd]
    rw [hstep, lookupProfile_update_isSome]
    constructor
    · rintro (h | h)
      · exact Or.inl h
      · exact Or.inr ⟨h.symm, Or.inl hd⟩
    · rintro (h | ⟨h, _⟩)
      · exact Or.inl h
      · exact Or.inr h.symm
  · cases hp : pd m.date with
    | none =>
        have hstep : patternStep pd ps m = ps := by simp [patternStep, hd, hp]
        rw [hstep]
        constructor
        · exact Or.inl
        · rintro (h | ⟨_, hc | ⟨t, ht⟩⟩)
          · exact h
          · exact absurd hc hd
          · cases ht
    | some t =>
        have hstep : patternStep pd ps m =
            updateProfile ps m.sender
              (fun p => ⟨p.sent_times ++ [t], p.topics ++ [m.subject]⟩) := by
          simp [patternStep, hd, hp]
        rw [hstep, lookupProfile_update_isSome]
        constructor
        · rintro (h | h)
          · exact Or.inl h
          · exact Or.inr ⟨h.symm, Or.inr ⟨t, rfl⟩⟩
        · rintro (h | ⟨h, _⟩)
          · exact Or.inl h
          · exact Or.inr h.symm

theorem lookup_patterns_foldl_isSome (pd : String → Option SentTime)
    (ms : List EmailData) (ps : Profiles) (s : String) :
    (∃ p, lookupProfile (ms.foldl (patternStep pd) ps) s = some p) ↔
      (∃ p, lookupProfile ps s = some p) ∨
        ∃ m ∈ ms, m.sender = s ∧ (m.date = "" ∨ ∃ t, pd m.date = some t) := by
  induction ms generalizing ps with
  | nil => simp
  | cons m ms ih =>
      rw [List.foldl_cons, ih, lookup_patternStep_isSome]
      simp only [List.mem_cons]
      constructor
      · rintro ((h | h) | ⟨m₁, hm₁, h⟩)
        · exact Or.inl h
        · exact Or.inr ⟨m, Or.inl rfl, h⟩
        · exact Or.inr ⟨m₁, Or.inr hm₁, h⟩
      · rintro (h | ⟨m₁, hm₁ | hm₁, h⟩)
        · exact Or.inl (Or.inl h)
        · exact Or.inl (Or.inr (hm₁ ▸ h))
        · exact Or.inr ⟨m₁, hm₁, h⟩

/-! ### Claim theorems -/

/-- C1: for a sender with no profile entry, or one whose profile has an
empty `sent_times` history, `predict_optimal_send_time` returns exactly
the fixed default (hour 10, Tuesday, low confidence, no-historical-data
reasoning), for every inference environment — hence deterministically and
with zero inference calls performed. -/
theorem predict_default_when_no_history (env : AIEnv) (a : String) (ps : Profiles)
    (h : lookupProfile ps a = none ∨
      ∃ p, lookupProfile ps a = some p ∧ p.sent_times = []) :
    predict_optimal_send_time env a ps =
      (⟨some 10, some "Tuesday", some "low",
        some "No historical data available. Using industry best practices."⟩, 0) := by
  unfold predict_optimal_send_time
  rcases h with h | ⟨p, hp, hs⟩
  · rw [h]
  · rw [hp]
    simp [hs]

/-- Witness for C1: a concrete unknown sender and a concrete sender with
empty history, under an environment whose inference call would return a
different answer if it were made. -/
theorem predict_default_when_no_history_witness :
    predict_optimal_send_time
        ⟨fun _ _ => some ⟨some 23, some "Friday", some "high", some "x"⟩,
         fun _ _ _ _ => none⟩
        "a@x.com" [("b@x.com", ⟨[], ["t"]⟩)] =
      (⟨some 10, some "Tuesday", some "low",
        some "No historical data available. Using industry best practices."⟩, 0)
    ∧ predict_optimal_send_time
        ⟨fun _ _ => some ⟨some 23, some "Friday", some "high", some "x"⟩,
         fun _ _ _ _ => none⟩
        "b@x.com" [("b@x.com", ⟨[], ["t"]⟩)] =
      (⟨some 10, some "Tuesday", some "low",
        some "No historical data available. Using industry best practices."⟩, 0) :=
  ⟨predict_default_when_no_history _ _ _ (Or.inl (by decide)),
   predict_default_when_no_history _ _ _ (Or.inr ⟨⟨[], ["t"]⟩, by decide, rfl⟩)⟩

/-- C3 counterexample: a message whose date string is absent (empty) is
NOT dropped atomically — its subject still enters its sender's topics
sequence (only the timing contribution is skipped), contradicting the
claim that such a message contributes to neither sequence. -/
theorem patterns_absent_date_not_atomic_cex :
    analyze_email_patterns (fun _ => none)
        [⟨"1", "a@x.com", "A", "hello", "snip", ""⟩] =
      [("a@x.com", ⟨[], ["hello"]⟩)]
    ∧ (["hello"] : List String) ≠ [] := by
  constructor
  · rfl
  · decide

/-- C3 amended: a message whose date string is present but unparsable is
dropped atomically (it contributes to neither the send-time sequence nor
the topics sequence of any profile) and its failure is not fatal to the
rest of the batch; a message whose date string is absent (empty), by
contrast, contributes its subject to its sender's topics sequence while
leaving every send-time sequence unchanged. -/
theorem patterns_drop_unparsable_keep_empty_date_subject
    (pd : String → Option SentTime) (xs ys : List EmailData) (bad : EmailData)
    (hne : bad.date ≠ "") (hpd : pd bad.date = none) :
    analyze_email_patterns pd (xs ++ bad :: ys) = analyze_email_patterns pd (xs ++ ys)
    ∧ ∀ (ps : Profiles) (m : EmailData), m.date = "" →
        (∀ s, ((lookupProfile (patternStep pd ps m) s).map Profile.sent_times).getD [] =
            ((lookupProfile ps s).map Profile.sent_times).getD [])
        ∧ ((lookupProfile (patternStep pd ps m) m.sender).map Profile.topics) =
            some ((((lookupProfile ps m.sender).map Profile.topics).getD []) ++ [m.subject]) := by
  constructor
  · have hstep : ∀ ps, patternStep pd ps bad = ps := by
      intro ps
      simp [patternStep, hne, hpd]
    unfold analyze_email_patterns
    rw [List.foldl_append, List.foldl_append, List.foldl_cons, hstep]
  · intro ps m hm
    have hstep : patternStep pd ps m =
        updateProfile ps m.sender (fun p => ⟨p.sent_times, p.topics ++ [m.subject]⟩) := by
      simp [patternStep, hm]
    constructor
    · intro s
      by_cases hs : s = m.sender
      · subst hs
        rw [hstep, lookupProfile_update_self]
        cases h : lookupProfile ps m.sender <;> simp [h]
      · rw [hstep, lookupProfile_update_ne ps m.sender _ s hs]
    · rw [hstep, lookupProfile_update_self]
      cases h : lookupProfile ps m.sender <;> simp [h]

/-- Witness for C3 amended: a concrete unparsable-date message is dropped
whole without disturbing the rest of the batch, and a concrete
absent-date message contributes its subject but no send time. -/
theorem patterns_drop_unparsable_witness :
    analyze_email_patterns (fun _ => none)
        [⟨"1", "a@x.com", "A", "s1", "p1", "not a date"⟩,
         ⟨"2", "b@x.com", "B", "s2", "p2", ""⟩] =
      analyze_email_patterns (fun _ => none) [⟨"2", "b@x.com", "B", "s2", "p2", ""⟩]
    ∧ ((lookupProfile
          (patternStep (fun _ => none) [] ⟨"2", "b@x.com", "B", "s2", "p2", ""⟩)
          "b@x.com").map Profile.topics) = some ["s2"] := by
  have h := patterns_drop_unparsable_keep_empty_date_subject
    (fun _ => none) [] [⟨"2", "b@x.com", "B", "s2", "p2", ""⟩]
    ⟨"1", "a@x.com", "A", "s1", "p1", "not a date"⟩ (by decide) rfl
  exact ⟨h.1, (h.2 [] ⟨"2", "b@x.com", "B", "s2", "p2", ""⟩ rfl).2⟩

/-- C4 counterexample: a sender all of whose messages carry unparsable
(nonempty) date strings receives no profile entry at all, so the key set of
the profiles mapping is strictly smaller than the set of distinct senders
in the batch. -/
theorem patterns_keys_missing_sender_cex :
    analyze_email_patterns (fun _ => none)
        [⟨"1", "a@x.com", "A", "hello", "snip", "not a date"⟩] = []
    ∧ ([⟨"1", "a@x.com", "A", "hello", "snip", "not a date"⟩] :
        List EmailData).map EmailData.sender = ["a@x.com"]
    ∧ lookupProfile
        (analyze_email_patterns (fun _ => none)
          [⟨"1", "a@x.com", "A", "hello", "snip", "not a date"⟩]) "a@x.com" = none := by
  exact ⟨rfl, rfl, rfl⟩

/-- C4 amended: a sender address has a profile entry exactly when the batch
contains a message from it whose date string is absent (empty) or parsable;
in particular every key of the mapping is a sender occurring in the batch,
but a sender whose every message has an unparsable date gets no entry. -/
theorem patterns_key_set (pd : String → Option SentTime)
    (emails : List EmailData) (s : String) :
    (∃ p, lookupProfile (analyze_email_patterns pd emails) s = some p) ↔
      ∃ m ∈ emails, m.sender = s ∧ (m.date = "" ∨ ∃ t, pd m.date = some t) := by
  unfold analyze_email_patterns
  rw [lookup_patterns_foldl_isSome]
  simp [lookupProfile]

/-- C2 counterexample: for a valid inference response missing `cta` and
`notes`, the engine substitutes `cta` with the string `Reply` and `notes`
with the string `N/A` — not with the claimed fallback values
`Reply when convenient` and `standard approach`; and the total-failure
object also differs from the claimed one (its `keyTopics` is
`[general inquiry]`, not `[]`). -/
theorem personalization_fallback_values_cex :
    ((analyze_email_batch
        ⟨fun _ _ => none,
         fun _ _ _ _ =>
           some ⟨some "casual", some ["alpha"], some "Hey", some ["hook"], none, none⟩⟩
        [⟨"1", "a@x.com", "A", "Sub", "Snip", ""⟩] []).1.map
      (fun e => (e.cta, e.notes)) = [("Reply", "N/A")]
      ∧ ("Reply", "N/A") ≠ ("Reply when convenient", "standard approach"))
    ∧ ((generate_personalized_content
          ⟨fun _ _ => none, fun _ _ _ _ => none⟩ "a@x.com" "Sub" "Snip" []).1.keyTopics =
        some ["general inquiry"]
      ∧ some ["general inquiry"] ≠ some ([] : List String)) := by
  exact ⟨⟨rfl, by decide⟩, ⟨rfl, by decide⟩⟩

/-- C2 amended: for a valid inference response missing any subset of the
six fields, the engine keeps the fields that are present and substitutes
only the missing ones, with the fallback values tone `professional`,
keyTopics `[]`, greeting `Hello`, contentHooks `[]`, cta `Reply`, notes
`N/A`; on total failure of the inference call it returns the object with
tone `professional`, keyTopics `[general inquiry]`, greeting `Hello`,
contentHooks `[value proposition]`, cta `Reply at your convenience`,
notes `Standard approach due to analysis error` (all six fields present,
so the merge keeps them verbatim). -/
theorem personalization_fallback_values (env : AIEnv) (e : EmailData)
    (ps : Profiles) (r : PersonalizationResp) :
    (env.personalizeCall e.sender e.subject e.snippet
        (((lookupProfile ps e.sender).map Profile.topics).getD []) = some r →
      (analyzeOne env ps e).1.tone = r.tone.getD "professional"
      ∧ (analyzeOne env ps e).1.keyTopics = r.keyTopics.getD []
      ∧ (analyzeOne env ps e).1.greeting = r.greeting.getD "Hello"
      ∧ (analyzeOne env ps e).1.contentHooks = r.contentHooks.getD []
      ∧ (analyzeOne env ps e).1.cta = r.cta.getD "Reply"
      ∧ (analyzeOne env ps e).1.notes = r.notes.getD "N/A")
    ∧ (env.personalizeCall e.sender e.subject e.snippet
        (((lookupProfile ps e.sender).map Profile.topics).getD []) = none →
      (generate_personalized_content env e.sender e.subject e.snippet ps).1 =
        ⟨some "professional", some ["general inquiry"], some "Hello",
         some ["value proposition"], some "Reply at your convenience",
         some "Standard approach due to analysis error"⟩) := by
  constructor
  · intro h
    simp [analyzeOne, generate_personalized_content, h]
  · intro h
    simp [generate_personalized_content, h]

/-- Witness for C2 amended: a concrete response with only `tone` and
`greeting` present is merged keeping those two and substituting the other
four; a concrete total failure yields the code's fallback object. -/
theorem personalization_fallback_values_witness :
    ((analyzeOne
        ⟨fun _ _ => none,
         fun _ _ _ _ => some ⟨some "casual", none, some "Hey", none, none, none⟩⟩
        [] ⟨"1", "a@x.com", "A", "Sub", "Snip", ""⟩).1.tone = "casual"
      ∧ (analyzeOne
        ⟨fun _ _ => none,
         fun _ _ _ _ => some ⟨some "casual", none, some "Hey", none, none, none⟩⟩
        [] ⟨"1", "a@x.com", "A", "Sub", "Snip", ""⟩).1.keyTopics = []
      ∧ (analyzeOne
        ⟨fun _ _ => none,
         fun _ _ _ _ => some ⟨some "casual", none, some "Hey", none, none, none⟩⟩
        [] ⟨"1", "a@x.com", "A", "Sub", "Snip", ""⟩).1.greeting = "Hey"
      ∧ (analyzeOne
        ⟨fun _ _ => none,
         fun _ _ _ _ => some ⟨some "casual", none, some "Hey", none, none, none⟩⟩
        [] ⟨"1", "a@x.com", "A", "Sub", "Snip", ""⟩).1.cta = "Reply")
    ∧ (generate_personalized_content
        ⟨fun _ _ => none, fun _ _ _ _ => none⟩ "a@x.com" "Sub" "Snip" []).1 =
      ⟨some "professional", some ["general inquiry"], some "Hello",
       some ["value proposition"], some "Reply at your convenience",
       some "Standard approach due to analysis error"⟩ := by
  have h₁ := (personalization_fallback_values
    ⟨fun _ _ => none,
     fun _ _ _ _ => some ⟨some "casual", none, some "Hey", none, none, none⟩⟩
    ⟨"1", "a@x.com", "A", "Sub", "Snip", ""⟩ []
    ⟨some "casual", none, some "Hey", none, none, none⟩).1 rfl
  have h₂ := (personalization_fallback_values
    ⟨fun _ _ => none, fun _ _ _ _ => none⟩
    ⟨"1", "a@x.com", "A", "Sub", "Snip", ""⟩ []
    ⟨none, none, none, none, none, none⟩).2 rfl
  exact ⟨⟨h₁.1, h₁.2.1, h₁.2.2.1, h₁.2.2.2.2.1⟩, h₂⟩

/-- C8 counterexample: when the stored credential record is expired with a
refresh token and the refresh attempt fails, `get_gmail_service` returns no
session (re-authorization is signalled) but does NOT discard the stored
record — the user row still carries the original credentials. -/
theorem get_gmail_service_refresh_failure_keeps_record_cex :
    (get_gmail_service
        ⟨fun s => if s = "stored" then
            some ⟨some "tok", some "rt", "uri", "cid", "sec", false, true⟩
          else none,
         fun _ => none,
         fun _ => "dumped"⟩
        ⟨1, "free", 0, 0, some "stored", some "rt"⟩).1 = none
    ∧ (get_gmail_service
        ⟨fun s => if s = "stored" then
            some ⟨some "tok", some "rt", "uri", "cid", "sec", false, true⟩
          else none,
         fun _ => none,
         fun _ => "dumped"⟩
        ⟨1, "free", 0, 0, some "stored", some "rt"⟩).2.1.gmail_credentials = some "stored"
    ∧ (some "stored" : Option String) ≠ none := by
  exact ⟨rfl, rfl, by decide⟩

/-- C8 amended: for a stored credential record that parses to an
invalid-but-expired credential carrying a (truthy) refresh token,
`get_gmail_service` attempts exactly one refresh; on success it persists
the serialized updated record (and its refresh token) on the user row and
returns a session handle built from the refreshed credentials; on failure
it returns no session — signalling that re-authorization is required — but
leaves the user row, including the stored record, unchanged. -/
theorem get_gmail_service_refresh_once (env : GmailEnv) (u : AppUser)
    (c : GoogleCreds)
    (hstore : strTruthy u.gmail_credentials = true)
    (hparse : env.parseCreds (u.gmail_credentials.getD "") = some c)
    (hvalid : c.valid = false) (hexp : c.expired = true)
    (htok : strTruthy c.refresh_token = true) :
    (get_gmail_service env u).2.2 = 1
    ∧ (∀ c₂, env.refresh c = some c₂ →
        (get_gmail_service env u).1 = some ⟨c₂⟩
        ∧ (get_gmail_service env u).2.1.gmail_credentials = some (env.dumpCreds c₂)
        ∧ (get_gmail_service env u).2.1.gmail_refresh_token = c₂.refresh_token)
    ∧ (env.refresh c = none →
        (get_gmail_service env u).1 = none
        ∧ (get_gmail_service env u).2.1 = u) := by
  refine ⟨?_, ?_, ?_⟩
  · unfold get_gmail_service
    rw [if_pos hstore, hparse]
    simp only [hvalid, hexp, htok]
    cases env.refresh c <;> simp
  · intro c₂ hr
    unfold get_gmail_service
    rw [if_pos hstore, hparse]
    simp [hvalid, hexp, htok, hr, save_gmail_credentials]
  · intro hr
    unfold get_gmail_service
    rw [if_pos hstore, hparse]
    simp [hvalid, hexp, htok, hr]

/-- Witness for C8 amended: a concrete expired record with a refresh token
under an environment whose refresh succeeds (record persisted, handle
returned, one attempt) and one whose refresh fails (no handle, row
unchanged, one attempt). -/
theorem get_gmail_service_refresh_once_witness :
    (get_gmail_service
        ⟨fun s => if s = "stored" then
            some ⟨some "tok", some "rt", "uri", "cid", "sec", false, true⟩
          else none,
         fun c => some { c with token := some "tok2", valid := true, expired := false },
         fun c => "dump:" ++ c.token.getD ""⟩
        ⟨1, "free", 0, 0, some "stored", some "rt"⟩).2.1.gmail_credentials =
      some "dump:tok2"
    ∧ (get_gmail_service
        ⟨fun s => if s = "stored" then
            some ⟨some "tok", some "rt", "uri", "cid", "sec", false, true⟩
          else none,
         fun c => some { c with token := some "tok2", valid := true, expired := false },
         fun c => "dump:" ++ c.token.getD ""⟩
        ⟨1, "free", 0, 0, some "stored", some "rt"⟩).2.2 = 1
    ∧ (get_gmail_service
        ⟨fun s => if s = "stored" then
            some ⟨some "tok", some "rt", "uri", "cid", "sec", false, true⟩
          else none,
         fun _ => none,
         fun _ => "dumped"⟩
        ⟨1, "free", 0, 0, some "stored", some "rt"⟩).2.1 =
      ⟨1, "free", 0, 0, some "stored", some "rt"⟩ := by
  have h₁ := get_gmail_service_refresh_once
    ⟨fun s => if s = "stored" then
        some ⟨some "tok", some "rt", "uri", "cid", "sec", false, true⟩
      else none,
     fun c => some { c with token := some "tok2", valid := true, expired := false },
     fun c => "dump:" ++ c.token.getD ""⟩
    ⟨1, "free", 0, 0, some "stored", some "rt"⟩
    ⟨some "tok", some "rt", "uri", "cid", "sec", false, true⟩
    rfl rfl rfl rfl rfl
  have h₂ := get_gmail_service_refresh_once
    ⟨fun s => if s = "stored" then
        some ⟨some "tok", some "rt", "uri", "cid", "sec", false, true⟩
      else none,
     fun _ => none,
     fun _ => "dumped"⟩
    ⟨1, "free", 0, 0, some "stored", some "rt"⟩
    ⟨some "tok", some "rt", "uri", "cid", "sec", false, true⟩
    rfl rfl rfl rfl rfl
  exact ⟨(h₁.2.1 _ rfl).2.1, h₁.1, (h₂.2.2 rfl).2⟩

/-- C9 counterexample: the export renderings do not reproduce every field
of the record — two distinct records, differing in their `snippet`,
`email_id` and `created_at` fields, produce identical markdown and
plain-text exports, so the renderings are not lossless. -/
theorem export_not_lossless_cex :
    exportMarkdown
        ⟨7, "gm1", "a@x.com", "A", "S", "snippet-one", "Tuesday", 10, "low",
         "professional", "Hello", [], [], "Reply", "N/A", "2024-01-01T00:00:00"⟩
        "2024-01-01 00:00" =
      exportMarkdown
        ⟨7, "gm2", "a@x.com", "A", "S", "snippet-two", "Tuesday", 10, "low",
         "professional", "Hello", [], [], "Reply", "N/A", "2024-02-02T00:00:00"⟩
        "2024-01-01 00:00"
    ∧ exportText
        ⟨7, "gm1", "a@x.com", "A", "S", "snippet-one", "Tuesday", 10, "low",
         "professional", "Hello", [], [], "Reply", "N/A", "2024-01-01T00:00:00"⟩
        "2024-01-01 00:00" =
      exportText
        ⟨7, "gm2", "a@x.com", "A", "S", "snippet-two", "Tuesday", 10, "low",
         "professional", "Hello", [], [], "Reply", "N/A", "2024-02-02T00:00:00"⟩
        "2024-01-01 00:00"
    ∧ (⟨7, "gm1", "a@x.com", "A", "S", "snippet-one", "Tuesday", 10, "low",
         "professional", "Hello", [], [], "Reply", "N/A", "2024-01-01T00:00:00"⟩ :
        AnalysisRow) ≠
      ⟨7, "gm2", "a@x.com", "A", "S", "snippet-two", "Tuesday", 10, "low",
       "professional", "Hello", [], [], "Reply", "N/A", "2024-02-02T00:00:00"⟩ := by
  refine ⟨rfl, rfl, by decide⟩

/-- C9 amended: both export renderings are deterministic functions of the
record together with the current timestamp; they are determined by (and
reproduce only) the record's id, sender, sender name, subject, optimal day,
optimal hour, confidence, tone, greeting, key topics, content hooks, cta
and notes — the `email_id`, `snippet` and `created_at` fields do not enter
either rendering, so the renderings are not lossless. -/
theorem export_determined_by_rendered_fields (a b : AnalysisRow) (now : String)
    (h1 : a.id = b.id) (h2 : a.sender = b.sender) (h3 : a.sender_name = b.sender_name)
    (h4 : a.subject = b.subject) (h5 : a.optimal_day = b.optimal_day)
    (h6 : a.optimal_hour = b.optimal_hour) (h7 : a.confidence = b.confidence)
    (h8 : a.tone = b.tone) (h9 : a.greeting = b.greeting)
    (h10 : a.key_topics = b.key_topics) (h11 : a.content_hooks = b.content_hooks)
    (h12 : a.cta = b.cta) (h13 : a.notes = b.notes) :
    exportMarkdown a now = exportMarkdown b now
    ∧ exportText a now = exportText b now := by
  unfold exportMarkdown exportText
  rw [h1, h2, h3, h4, h5, h6, h7, h8, h9, h10, h11, h12, h13]
  exact ⟨rfl, rfl⟩

/-- Witness for C9 amended: two concrete records agreeing on the thirteen
rendered fields but differing in snippet, message id and creation time
produce identical markdown and plain-text exports. -/
theorem export_determined_by_rendered_fields_witness :
    exportMarkdown
        ⟨3, "m1", "b@x.com", "B", "T", "sn1", "Friday", 9, "high",
         "casual", "Hi", ["k"], ["h"], "Call", "ok", "2024-03-01T00:00:00"⟩
        "2024-03-05 12:00" =
      exportMarkdown
        ⟨3, "m9", "b@x.com", "B", "T", "sn2", "Friday", 9, "high",
         "casual", "Hi", ["k"], ["h"], "Call", "ok", "2024-03-02T00:00:00"⟩
        "2024-03-05 12:00"
    ∧ exportText
        ⟨3, "m1", "b@x.com", "B", "T", "sn1", "Friday", 9, "high",
         "casual", "Hi", ["k"], ["h"], "Call", "ok", "2024-03-01T00:00:00"⟩
        "2024-03-05 12:00" =
      exportText
        ⟨3, "m9", "b@x.com", "B", "T", "sn2", "Friday", 9, "high",
         "casual", "Hi", ["k"], ["h"], "Call", "ok", "2024-03-02T00:00:00"⟩
        "2024-03-05 12:00" :=
  export_determined_by_rendered_fields
    ⟨3, "m1", "b@x.com", "B", "T", "sn1", "Friday", 9, "high",
     "casual", "Hi", ["k"], ["h"], "Call", "ok", "2024-03-01T00:00:00"⟩
    ⟨3, "m9", "b@x.com", "B", "T", "sn2", "Friday", 9, "high",
     "casual", "Hi", ["k"], ["h"], "Call", "ok", "2024-03-02T00:00:00"⟩
    "2024-03-05 12:00"
    rfl rfl rfl rfl rfl rfl rfl rfl rfl rfl rfl rfl rfl

theorem batch_foldl_fst (env : AIEnv) (ps : Profiles) (ms : List EmailData)
    (acc : List AnalyzedEmail × Nat) :
    (ms.foldl
      (fun acc e =>
        let r := analyzeOne env ps e
        (acc.1 ++ [r.1], acc.2 + r.2)) acc).1 =
      acc.1 ++ ms.map (fun e => (analyzeOne env ps e).1) := by
  induction ms generalizing acc with
  | nil => simp
  | cons m ms ih => simp [ih]

theorem analyze_email_batch_fst (env : AIEnv) (emails : List EmailData)
    (ps : Profiles) :
    (analyze_email_batch env emails ps).1 =
      emails.map (fun e => (analyzeOne env ps e).1) := by
  unfold analyze_email_batch
  rw [batch_foldl_fst]
  rfl

theorem get_gmail_service_preserves_counters (env : GmailEnv) (u : AppUser) :
    ((get_gmail_service env u).2.1).emails_analyzed_this_month =
        u.emails_analyzed_this_month
    ∧ ((get_gmail_service env u).2.1).total_emails_analyzed =
        u.total_emails_analyzed := by
  unfold get_gmail_service save_gmail_credentials
  repeat' split
  all_goals simp

/-- C5: a user whose monthly counter has reached the tier limit is rejected
by the admission gate: the endpoint answers quota-exceeded with the user's
limit and current count, the user row and database are untouched, and zero
inference-service calls are performed (the result is the same for every
collaborator environment, so no fetch happens either); a user strictly
below the limit is never answered with quota-exceeded. -/
theorem quota_admission_gate (env : Env) (u : AppUser) (db : DbState) (r : Nat) :
    (get_usage_limit u ≤ u.emails_analyzed_this_month →
      analyze_emails env u db r =
        (.quotaExceeded (get_usage_limit u) u.emails_analyzed_this_month, u, db, 0))
    ∧ (u.emails_analyzed_this_month < get_usage_limit u →
        ∀ l n, (analyze_emails env u db r).1 ≠ .quotaExceeded l n) := by
  constructor
  · intro h
    have hc : can_analyze_email u = false := by
      simp [can_analyze_email, Nat.not_lt.mpr h]
    simp [analyze_emails, hc]
  · intro h l n
    have hc : can_analyze_email u = true := by
      simp [can_analyze_email, h]
    unfold analyze_emails
    rw [if_neg (by simp [hc])]
    rcases hgs : get_gmail_service env.gmail u with ⟨svc, u₁, k⟩
    cases svc with
    | none => simp [hgs]
    | some s =>
        rcases hf : fetch_emails env.mail s 50 with e | W
        · simp [hgs, hf]
        · simp only [hgs, hf]
          split <;> simp

/-- Witness for C5: a concrete free-tier user at exactly the limit of 10 is
rejected without state change or inference calls; at 9 of 10 the gate
passes. -/
theorem quota_admission_gate_witness :
    analyze_emails
        ⟨⟨fun _ => none, fun _ => none, fun _ => ""⟩,
         ⟨fun _ _ => some [], fun _ _ => none⟩,
         ⟨fun _ _ => none, fun _ _ _ _ => none⟩,
         fun _ => none⟩
        ⟨1, "free", 10, 42, none, none⟩ ⟨[], []⟩ 5 =
      (.quotaExceeded 10 10, ⟨1, "free", 10, 42, none, none⟩, ⟨[], []⟩, 0)
    ∧ (analyze_emails
        ⟨⟨fun _ => none, fun _ => none, fun _ => ""⟩,
         ⟨fun _ _ => some [], fun _ _ => none⟩,
         ⟨fun _ _ => none, fun _ _ _ _ => none⟩,
         fun _ => none⟩
        ⟨1, "free", 9, 42, none, none⟩ ⟨[], []⟩ 5).1 ≠ .quotaExceeded 10 9 :=
  ⟨(quota_admission_gate _ ⟨1, "free", 10, 42, none, none⟩ _ _).1 (by decide),
   (quota_admission_gate _ ⟨1, "free", 9, 42, none, none⟩ _ _).2 (by decide) 10 9⟩

/-- C6: when the admission gate, the session resolution and the fetch all
succeed, the monthly and lifetime counters are each incremented by exactly
the number of analysis records actually produced by the batch (not by the
requested count), and the same final state carries those counters together
with the produced records appended to the stored analyses and the usage-log
entry — one atomic commit. -/
theorem usage_incremented_by_produced (env : Env) (u : AppUser) (db : DbState)
    (r : Nat) (svc : GmailService) (u₁ : AppUser) (k : Nat) (W : List EmailData)
    (hq : can_analyze_email u = true)
    (hs : get_gmail_service env.gmail u = (some svc, u₁, k))
    (hf : fetch_emails env.mail svc 50 = Except.ok W) :
    ((analyze_emails env u db r).2.1).emails_analyzed_this_month =
        u.emails_analyzed_this_month +
          ((analyze_email_batch env.ai (W.take (min r 10))
              (analyze_email_patterns env.parsedate W)).1).length
    ∧ ((analyze_emails env u db r).2.1).total_emails_analyzed =
        u.total_emails_analyzed +
          ((analyze_email_batch env.ai (W.take (min r 10))
              (analyze_email_patterns env.parsedate W)).1).length
    ∧ ((analyze_emails env u db r).2.2.1).analyses =
        db.analyses ++
          (analyze_email_batch env.ai (W.take (min r 10))
            (analyze_email_patterns env.parsedate W)).1
    ∧ ((analyze_emails env u db r).2.2.1).usage_logs =
        db.usage_logs ++
          [((analyze_email_batch env.ai (W.take (min r 10))
              (analyze_email_patterns env.parsedate W)).1).length] := by
  have hcnt := get_gmail_service_preserves_counters env.gmail u
  rw [hs] at hcnt
  simp only at hcnt
  unfold analyze_emails
  rw [if_neg (by simp [hq])]
  simp only [hs, hf]
  split <;> simp [hcnt.1, hcnt.2]

/-- Witness for C6: a concrete run over a one-message mailbox increments
both counters by exactly 1 (the one record produced) and appends that
record and the log entry in the same final state. -/
theorem usage_incremented_by_produced_witness :
    ((analyze_emails
        ⟨⟨fun _ => some ⟨some "tok", some "rt", "uri", "cid", "sec", true, false⟩,
          fun _ => none, fun _ => "d"⟩,
         ⟨fun _ _ => some ["m1"],
          fun _ _ => some ⟨some [("From", "Alice <a@x.com>"), ("Subject", "Hi")], "sn"⟩⟩,
         ⟨fun _ _ => none, fun _ _ _ _ => none⟩,
         fun _ => none⟩
        ⟨1, "free", 3, 7, some "c", some "rt"⟩ ⟨[], []⟩ 5).2.1).emails_analyzed_this_month = 4
    ∧ ((analyze_emails
        ⟨⟨fun _ => some ⟨some "tok", some "rt", "uri", "cid", "sec", true, false⟩,
          fun _ => none, fun _ => "d"⟩,
         ⟨fun _ _ => some ["m1"],
          fun _ _ => some ⟨some [("From", "Alice <a@x.com>"), ("Subject", "Hi")], "sn"⟩⟩,
         ⟨fun _ _ => none, fun _ _ _ _ => none⟩,
         fun _ => none⟩
        ⟨1, "free", 3, 7, some "c", some "rt"⟩ ⟨[], []⟩ 5).2.1).total_emails_analyzed = 8 := by
  have h := usage_incremented_by_produced
    ⟨⟨fun _ => some ⟨some "tok", some "rt", "uri", "cid", "sec", true, false⟩,
      fun _ => none, fun _ => "d"⟩,
     ⟨fun _ _ => some ["m1"],
      fun _ _ => some ⟨some [("From", "Alice <a@x.com>"), ("Subject", "Hi")], "sn"⟩⟩,
     ⟨fun _ _ => none, fun _ _ _ _ => none⟩,
     fun _ => none⟩
    ⟨1, "free", 3, 7, some "c", some "rt"⟩ ⟨[], []⟩ 5
    ⟨⟨some "tok", some "rt", "uri", "cid", "sec", true, false⟩⟩
    ⟨1, "free", 3, 7, some "c", some "rt"⟩ 0
    [⟨"m1", "a@x.com", "Alice", "Hi", "sn", ""⟩]
    rfl rfl rfl
  exact ⟨h.1, h.2.1⟩

/-- C7: the fetch window has the fixed size 50, independent of the
requested count (the hypothesis fixes the window `W` as the result of
fetching 50, whatever `r` is); profiles are built over the entire window;
and the two recommendation operations are run exactly once per message of
the first `min(requested, 10)` messages of the window: the selection is
bounded by both the request and the hard cap 10, one record is produced
per selected message, all inference calls of the request come from that
selected batch, and the successful response returns exactly that batch. -/
theorem bounded_selection_fixed_window (env : Env) (u : AppUser) (db : DbState)
    (r : Nat) (svc : GmailService) (u₁ : AppUser) (k : Nat) (W : List EmailData)
    (hq : can_analyze_email u = true)
    (hs : get_gmail_service env.gmail u = (some svc, u₁, k))
    (hf : fetch_emails env.mail svc 50 = Except.ok W) :
    (W.take (min r 10)).length ≤ 10
    ∧ (W.take (min r 10)).length ≤ r
    ∧ ((analyze_email_batch env.ai (W.take (min r 10))
          (analyze_email_patterns env.parsedate W)).1).length =
        (W.take (min r 10)).length
    ∧ (analyze_emails env u db r).2.2.2 =
        (analyze_email_batch env.ai (W.take (min r 10))
          (analyze_email_patterns env.parsedate W)).2
    ∧ ((analyze_emails env u db r).1 = .serverError "division by zero"
        ∨ ∃ st, (analyze_emails env u db r).1 =
            .ok (analyze_email_batch env.ai (W.take (min r 10))
                  (analyze_email_patterns env.parsedate W)).1 st) := by
  refine ⟨?_, ?_, ?_, ?_, ?_⟩
  · rw [List.length_take]
    omega
  · rw [List.length_take]
    omega
  · rw [analyze_email_batch_fst, List.length_map]
  · unfold analyze_emails
    rw [if_neg (by simp [hq])]
    simp only [hs, hf]
    split <;> simp
  · unfold analyze_emails
    rw [if_neg (by simp [hq])]
    simp only [hs, hf]
    split
    · exact Or.inl (by simp)
    · exact Or.inr ⟨_, rfl⟩

/-- Witness for C7: a concrete run requesting 3 over a two-message window
selects `min 3 10 = 2` messages, produces 2 records, and returns them. -/
theorem bounded_selection_fixed_window_witness :
    ((analyze_email_batch
        ⟨fun _ _ => none, fun _ _ _ _ => none⟩
        (([⟨"m1", "a@x.com", "Alice", "Hi", "sn", ""⟩,
           ⟨"m2", "b@x.com", "Bob", "Yo", "sn", ""⟩] : List EmailData).take (min 3 10))
        (analyze_email_patterns (fun _ => none)
          [⟨"m1", "a@x.com", "Alice", "Hi", "sn", ""⟩,
           ⟨"m2", "b@x.com", "Bob", "Yo", "sn", ""⟩])).1).length =
      (([⟨"m1", "a@x.com", "Alice", "Hi", "sn", ""⟩,
         ⟨"m2", "b@x.com", "Bob", "Yo", "sn", ""⟩] : List EmailData).take (min 3 10)).length
    ∧ (([⟨"m1", "a@x.com", "Alice", "Hi", "sn", ""⟩,
         ⟨"m2", "b@x.com", "Bob", "Yo", "sn", ""⟩] : List EmailData).take (min 3 10)).length ≤ 10 := by
  have h := bounded_selection_fixed_window
    ⟨⟨fun _ => some ⟨some "tok", some "rt", "uri", "cid", "sec", true, false⟩,
      fun _ => none, fun _ => "d"⟩,
     ⟨fun _ _ => some ["m1", "m2"],
      fun _ i => if i = "m1" then
          some ⟨some [("From", "Alice <a@x.com>"), ("Subject", "Hi")], "sn"⟩
        else some ⟨some [("From", "Bob <b@x.com>"), ("Subject", "Yo")], "sn"⟩⟩,
     ⟨fun _ _ => none, fun _ _ _ _ => none⟩,
     fun _ => none⟩
    ⟨1, "free", 3, 7, some "c", some "rt"⟩ ⟨[], []⟩ 3
    ⟨⟨some "tok", some "rt", "uri", "cid", "sec", true, false⟩⟩
    ⟨1, "free", 3, 7, some "c", some "rt"⟩ 0
    [⟨"m1", "a@x.com", "Alice", "Hi", "sn", ""⟩,
     ⟨"m2", "b@x.com", "Bob", "Yo", "sn", ""⟩]
    rfl rfl rfl
  exact ⟨h.2.2.1, h.1⟩

/-- C10: when the session, quota and fetch steps all pass but the batch
produces zero analysis records, the summary-statistics step divides by the
record count without a zero guard, so the request raises
(`ZeroDivisionError`, surfaced as a 500 error response) instead of
returning a successful empty-batch result. -/
theorem empty_batch_division_by_zero (env : Env) (u : AppUser) (db : DbState)
    (r : Nat) (svc : GmailService) (u₁ : AppUser) (k : Nat) (W : List EmailData)
    (hq : can_analyze_email u = true)
    (hs : get_gmail_service env.gmail u = (some svc, u₁, k))
    (hf : fetch_emails env.mail svc 50 = Except.ok W)
    (hzero : (analyze_email_batch env.ai (W.take (min r 10))
        (analyze_email_patterns env.parsedate W)).1 = []) :
    (analyze_emails env u db r).1 = .serverError "division by zero"
    ∧ ∀ es st, (analyze_emails env u db r).1 ≠ .ok es st := by
  unfold analyze_emails
  rw [if_neg (by simp [hq])]
  simp only [hs, hf]
  constructor
  · simp [hzero]
  · intro es st
    simp [hzero]

/-- Witness for C10: a concrete run whose mailbox listing is empty passes
session, quota and fetch, produces zero records, and ends in the
division-by-zero error response. -/
theorem empty_batch_division_by_zero_witness :
    (analyze_emails
        ⟨⟨fun _ => some ⟨some "tok", some "rt", "uri", "cid", "sec", true, false⟩,
          fun _ => none, fun _ => "d"⟩,
         ⟨fun _ _ => some [], fun _ _ => none⟩,
         ⟨fun _ _ => none, fun _ _ _ _ => none⟩,
         fun _ => none⟩
        ⟨1, "free", 3, 7, some "c", some "rt"⟩ ⟨[], []⟩ 5).1 =
      .serverError "division by zero" :=
  (empty_batch_division_by_zero
    ⟨⟨fun _ => some ⟨some "tok", some "rt", "uri", "cid", "sec", true, false⟩,
      fun _ => none, fun _ => "d"⟩,
     ⟨fun _ _ => some [], fun _ _ => none⟩,
     ⟨fun _ _ => none, fun _ _ _ _ => none⟩,
     fun _ => none⟩
    ⟨1, "free", 3, 7, some "c", some "rt"⟩ ⟨[], []⟩ 5
    ⟨⟨some "tok", some "rt", "uri", "cid", "sec", true, false⟩⟩
    ⟨1, "free", 3, 7, some "c", some "rt"⟩ 0 []
    rfl rfl rfl rfl).1

end BOB
